import Mathlib

/-!
Verification of `testsprite_tests/TC009_Nearby_Issue_Queries_with_Spatial_Indexing_Performance.py`.

The script `run_test` is embedded shallowly: every fallible awaited operation is
modelled by an oracle in an `Env` record saying whether that operation raises
(and which exception), and the body / `finally` control flow of the Python
function is translated into pure Lean functions over that record.  A second,
structural embedding captures what one scripted interaction block does
(which page the locator is resolved on, which page the settling delay is
awaited on, in which order).  The Network Probe and Assertion Engine that the
design document describes are absent from the script and are modelled from the
spec where a claim needs them.
-/

set_option autoImplicit false

/-- Exceptions that can be raised by the awaited operations of the script.
`navTimeout`, `locatorTimeout` and `apiError` model instances of
`playwright.async_api.Error` (`TimeoutError` is a subclass of `Error`);
`assertionError` models Python's `AssertionError`, raised by the final
`assert False` statement; `otherError` models any exception that is neither. -/
inductive Exc where
  | navTimeout
  | locatorTimeout
  | apiError
  | assertionError (msg : String)
  | otherError
  deriving DecidableEq, Repr

/-- Whether an exception is an instance of `playwright.async_api.Error`,
the only class caught by the script's `except async_api.Error: pass` blocks. -/
def isApiError : Exc → Bool
  | .navTimeout => true
  | .locatorTimeout => true
  | .apiError => true
  | .assertionError _ => false
  | .otherError => false

/-- Oracles for one run: for each awaited operation of `run_test`, `none`
means the operation completes normally and `some e` means it raises `e`.
`frameWaitExc` has one entry per frame in `page.frames` at line 40;
`clickExc i` is the result of the `elem.click(timeout=5000)` call of the
`i`-th click block (there are nine such blocks). -/
structure Env where
  startExc : Option Exc
  launchExc : Option Exc
  newContextExc : Option Exc
  newPageExc : Option Exc
  gotoExc : Option Exc
  mainWaitExc : Option Exc
  frameWaitExc : List (Option Exc)
  clickExc : Nat → Option Exc
  apiGotoExc : Option Exc
  ctxCloseExc : Option Exc
  browserCloseExc : Option Exc
  stopExc : Option Exc

/-- Which of the three session resources have been acquired (assigned a
non-`None` handle): the Playwright driver `pw`, the `browser` process and the
browsing `context`. -/
structure Acq where
  pw : Bool
  browser : Bool
  ctx : Bool
  deriving DecidableEq, Repr

/-- All three resources acquired. -/
def allAcq : Acq := ⟨true, true, true⟩

/-- The message of the script's final `assert False` statement. -/
def undefinedExpectationMsg : String :=
  "Test plan execution failed: generic failure assertion as expected result is unknown."

/-- Embedding of `try: await ...wait_for_load_state("domcontentloaded", timeout=3000)
except async_api.Error: pass`: an `async_api.Error` raised by the wait (timeout,
frame detached, ...) is swallowed; any other exception propagates. -/
def tryWaitLoadState : Option Exc → Option Exc
  | none => none
  | some e => if isApiError e then none else some e

/-- Embedding of the `for frame in page.frames:` loop, each iteration wrapped
in the same `try/except async_api.Error: pass`. An empty frame list is a
no-op. -/
def frameWaitLoop : List (Option Exc) → Option Exc
  | [] => none
  | r :: rs =>
    match tryWaitLoadState r with
    | some e => some e
    | none => frameWaitLoop rs

/-- Run the click blocks with indices `start, start+1, ...` (`n` of them) in
order, stopping at the first one whose `elem.click` raises.  Returns the list
of indices of the blocks that were attempted, in order, together with the
exception of the failing block if any.  Each block is attempted at most once —
the script contains no retry loop. -/
def runClicks (env : Env) : Nat → Nat → List Nat × Option Exc
  | _, 0 => ([], none)
  | start, n + 1 =>
    match env.clickExc start with
    | some e => ([start], some e)
    | none =>
      let r := runClicks env (start + 1) n
      (start :: r.1, r.2)

/-- Result of the `try` body of `run_test`: the resources acquired on entry to
`finally`, the exception the body raised (`none` would mean normal completion),
the indices of the click blocks attempted, and whether the `page.goto` on the
`/api/issues` URL was attempted. -/
structure BodyRes where
  acq : Acq
  exc : Option Exc
  clickSteps : List Nat
  apiGotoAttempted : Bool
  deriving DecidableEq, Repr

/-- Embedding of the `try` body of `run_test`:
`pw = await async_api.async_playwright().start()`, then `browser = await
pw.chromium.launch(...)`, then `context = await browser.new_context()` (the
synchronous `context.set_default_timeout(5000)` cannot raise in this model),
then `page = await context.new_page()`, then `page.goto(..., wait_until=
"commit")`, then the swallowed main-page and per-frame readiness waits, then
click block 0, then the `page.goto` on the `/api/issues` query URL, then click
blocks 1–8, and finally the unconditional `assert False`. -/
def runBody (env : Env) : BodyRes :=
  match env.startExc with
  | some e => ⟨⟨false, false, false⟩, some e, [], false⟩
  | none =>
    match env.launchExc with
    | some e => ⟨⟨true, false, false⟩, some e, [], false⟩
    | none =>
      match env.newContextExc with
      | some e => ⟨⟨true, true, false⟩, some e, [], false⟩
      | none =>
        match env.newPageExc with
        | some e => ⟨allAcq, some e, [], false⟩
        | none =>
          match env.gotoExc with
          | some e => ⟨allAcq, some e, [], false⟩
          | none =>
            match tryWaitLoadState env.mainWaitExc with
            | some e => ⟨allAcq, some e, [], false⟩
            | none =>
              match frameWaitLoop env.frameWaitExc with
              | some e => ⟨allAcq, some e, [], false⟩
              | none =>
                match env.clickExc 0 with
                | some e => ⟨allAcq, some e, [0], false⟩
                | none =>
                  match env.apiGotoExc with
                  | some e => ⟨allAcq, some e, [0], true⟩
                  | none =>
                    match runClicks env 1 8 with
                    | (ks, some e) => ⟨allAcq, some e, 0 :: ks, true⟩
                    | (ks, none) =>
                      ⟨allAcq, some (.assertionError undefinedExpectationMsg),
                        0 :: ks, true⟩

/-- Result of the `finally` block: how many times each close operation ran
and the exception the block raised, if any. -/
structure Teard where
  ctxCloses : Nat
  browserCloses : Nat
  stops : Nat
  raised : Option Exc
  deriving DecidableEq, Repr

/-- One statement of the `finally` block: it runs only when no earlier
statement of the block has raised (`prior = none`), and only when its guard
(`if context:` / `if browser:` / `if pw:`) holds; it then performs the close,
which may itself raise. Returns how many times the close ran and the pending
exception afterwards. -/
def tdNext (prior : Option Exc) (acquired : Bool) (exc : Option Exc) :
    Nat × Option Exc :=
  match prior with
  | some e => (0, some e)
  | none => if acquired then (1, exc) else (0, none)

/-- Embedding of the `finally` block: `if context: await context.close()`,
then `if browser: await browser.close()`, then `if pw: await pw.stop()`,
executed in order with Python's semantics — an exception raised by one
statement aborts the remaining statements of the block. -/
def runFinally (env : Env) (a : Acq) : Teard :=
  let c := tdNext none a.ctx env.ctxCloseExc
  let b := tdNext c.2 a.browser env.browserCloseExc
  let p := tdNext b.2 a.pw env.stopExc
  ⟨c.1, b.1, p.1, p.2⟩

/-- Python's `try/finally` outcome: an exception raised inside `finally`
replaces the body's exception; otherwise the body's exception (if any)
propagates after the block. `none` is a normal return. -/
def finalOutcome (bodyExc : Option Exc) (t : Teard) : Option Exc :=
  match t.raised with
  | some e => some e
  | none => bodyExc

/-- Trace of one whole run of `run_test`. -/
structure RunRes where
  body : BodyRes
  td : Teard
  outcome : Option Exc
  deriving DecidableEq, Repr

/-- Embedding of `run_test`: run the `try` body, then the `finally` block on
whatever was acquired, and combine the exceptions with Python's `try/finally`
semantics. -/
def run_test (env : Env) : RunRes :=
  let b := runBody env
  let t := runFinally env b.acq
  ⟨b, t, finalOutcome b.exc t⟩

example :
    run_test
      { startExc := none, launchExc := none, newContextExc := none,
        newPageExc := none, gotoExc := none, mainWaitExc := none,
        frameWaitExc := [], clickExc := fun _ => none, apiGotoExc := none,
        ctxCloseExc := none, browserCloseExc := none, stopExc := none } =
      ⟨⟨allAcq, some (.assertionError undefinedExpectationMsg),
          [0, 1, 2, 3, 4, 5, 6, 7, 8], true⟩,
        ⟨1, 1, 1, none⟩,
        some (.assertionError undefinedExpectationMsg)⟩ := by
  decide

/-! ## Structural embedding of one click block

Each of the nine click blocks of the script is the same three lines:
```
frame = context.pages[-1]
elem = frame.locator('xpath=...').nth(0)
await page.wait_for_timeout(3000); await elem.click(timeout=5000)
```
`context.pages[-1]` is re-read at the start of the block (the last page of the
context's page list at that moment), the locator is built on that page, the
3000 ms settling delay is awaited on `page` (the page object created by
`context.new_page()` at the start of the run), and the click is performed on
the locator with a 5000 ms timeout. -/

/-- A Playwright page object, identified by its handle. -/
structure PwPage where
  id : Nat
  deriving DecidableEq, Repr

/-- The observable events of one click block, in program order. -/
inductive StepEvent where
  | resolveTopmost (p : Option PwPage)
  | buildLocator (onPage : Option PwPage) (xpath : String) (nth : Nat)
  | settle (onPage : PwPage) (ms : Nat)
  | click (target : Option PwPage) (xpath : String) (timeoutMs : Nat)
  deriving DecidableEq, Repr

/-- Embedding of one click block, given the page created at the start of the
run (`initialPage`, the script's `page` variable) and the context's page list
at the moment this block starts (`pages`, so `context.pages[-1]` is
`pages.getLast?`). -/
def execClickStep (initialPage : PwPage) (pages : List PwPage)
    (xpath : String) : List StepEvent :=
  [ .resolveTopmost pages.getLast?,
    .buildLocator pages.getLast? xpath 0,
    .settle initialPage 3000,
    .click pages.getLast? xpath 5000 ]

/-- The XPath expressions of the nine click blocks, in script order. -/
def clickXpaths : List String :=
  [ "html/body/div/div[2]/div/header/div/div/a[2]",
    "html/body/div/div[2]/div/header/div/div/a[2]",
    "html/body/div",
    "html/body/div",
    "html/body/div",
    "html/body/div/div[2]/main/div/div[2]/div/div/div/div[2]/div/div/a",
    "html/body/div/div[2]/main/div/div[2]/div/div/div/div[2]/div/div/a[2]",
    "html/body/div",
    "html/body/div" ]

/-- The event traces of the nine click blocks of the run, where `pagesAt i` is
the context's page list at the moment click block `i` starts. -/
def interactionTraces (initialPage : PwPage) (pagesAt : Nat → List PwPage) :
    List (List StepEvent) :=
  (List.range clickXpaths.length).map fun i =>
    execClickStep initialPage (pagesAt i) (clickXpaths.getD i "")

/-- The page the click of a block is performed on (the page its locator was
built on). -/
def clickTargetOf : List StepEvent → Option PwPage
  | [] => none
  | .click t _ _ :: _ => t
  | _ :: rest => clickTargetOf rest

/-- The page the settling delay of a block is awaited on. -/
def settlePageOf : List StepEvent → Option PwPage
  | [] => none
  | .settle p _ :: _ => some p
  | _ :: rest => settlePageOf rest

/-! ## Network Probe and Assertion Engine, modelled from the spec

The script never parses a response, never measures elapsed time and never
checks any spatial bound (its only contact with the endpoint is a `page.goto`
on the `/api/issues` query URL, and it ends in an unconditional
`assert False`).  The components below are therefore modelled from the spec's
component design (§4.4 Network Probe, §4.5 Assertion Engine). -/

/-- An issue record returned by the geospatial endpoint: at least
`{id, latitude, longitude, status}` (spec §3).  Coordinates are modelled as
rationals. -/
structure Issue where
  id : String
  latitude : ℚ
  longitude : ℚ
  status : String
  deriving DecidableEq, Repr

/-- A query result: `{records: ordered sequence of Issue, elapsed: duration}`
(spec §3). -/
structure QueryResult where
  records : List Issue
  elapsed : ℚ
  deriving DecidableEq, Repr

/-- A `SpatialBoundsViolation` failure names the offending record (spec §4.5). -/
structure SpatialBoundsViolation where
  offender : Issue
  deriving DecidableEq, Repr

/-- Modelled from the spec: the Assertion Engine's `assertSpatialBounds`
(§4.5), absent from the script.  `dist center r` is the great-circle distance
in kilometers of record `r` from the query `center` under the configured
geodesic model, and `eps` is the configurable floating-point/geodesic
tolerance.  Scans `result.records` and reports the first record whose distance
from the center exceeds `radiusKm + eps` as a `SpatialBoundsViolation` naming
that record; reports nothing when every record is within the bound. -/
def assertSpatialBounds (dist : ℚ × ℚ → Issue → ℚ) (result : QueryResult)
    (center : ℚ × ℚ) (radiusKm eps : ℚ) : Option SpatialBoundsViolation :=
  match result.records.find? (fun r => decide (radiusKm + eps < dist center r)) with
  | some r => some ⟨r⟩
  | none => none

/-- One observed request/response exchange against the endpoint: the request
path, the wall-clock time at which the request was dispatched, the wall-clock
time at which the response completed, and the parsed records of the response. -/
structure NetObservation where
  path : String
  dispatchAt : ℚ
  completedAt : ℚ
  records : List Issue
  deriving DecidableEq, Repr

/-- Outcome of the Network Probe's `observe` (spec §4.4): either a
`QueryResult`, or `NoMatchingRequest` when no request matching the endpoint's
path pattern was observed within the configured timeout. -/
inductive ProbeOutcome where
  | result (r : QueryResult)
  | noMatchingRequest
  deriving DecidableEq, Repr

/-- Modelled from the spec: strategy (a) of the Network Probe (§4.4), direct
invocation — issue the request, parse the response, and report the wall-clock
elapsed time from request dispatch to response completion. -/
def observeDirect (o : NetObservation) : QueryResult :=
  { records := o.records, elapsed := o.completedAt - o.dispatchAt }

/-- Whether an observed exchange matches the endpoint's path pattern. -/
def matchesPattern (pat : String) (o : NetObservation) : Bool :=
  pat.data.isPrefixOf o.path.data

/-- Modelled from the spec: strategy (b) of the Network Probe (§4.4), passive
interception — monitor the outgoing requests observed while the trigger runs
(`obs`, in dispatch order), capture the first one matching the endpoint's path
pattern, and report its records and its wall-clock elapsed time; signal
`NoMatchingRequest` when none matches. -/
def observePassive (pat : String) (obs : List NetObservation) : ProbeOutcome :=
  match obs.find? (matchesPattern pat) with
  | some o => .result (observeDirect o)
  | none => .noMatchingRequest

/-! ## Helper lemmas -/

theorem tryWaitLoadState_of_apiError {r : Option Exc}
    (h : r.all isApiError = true) : tryWaitLoadState r = none := by
  cases r with
  | none => rfl
  | some e => simp [Option.all_some] at h; simp [tryWaitLoadState, h]

theorem frameWaitLoop_of_apiError {rs : List (Option Exc)}
    (h : rs.all (fun r => r.all isApiError) = true) : frameWaitLoop rs = none := by
  induction rs with
  | nil => rfl
  | cons r rs ih =>
    simp [List.all_cons] at h
    simp [frameWaitLoop, tryWaitLoadState_of_apiError h.1,
      ih (List.all_eq_true.mpr h.2)]

theorem runClicks_ok (env : Env) (n : Nat) :
    ∀ start : Nat, (∀ j, start ≤ j → j < start + n → env.clickExc j = none) →
      runClicks env start n = (List.range' start n, none) := by
  induction n with
  | zero => intro start _; rfl
  | succ n ih =>
    intro start h
    have h0 : env.clickExc start = none := h start le_rfl (by omega)
    have h' : ∀ j, start + 1 ≤ j → j < start + 1 + n → env.clickExc j = none :=
      fun j hj1 hj2 => h j (by omega) (by omega)
    simp [runClicks, h0, ih (start + 1) h', List.range'_succ]

theorem runClicks_fail (env : Env) (e : Exc) (n : Nat) :
    ∀ start i : Nat, start ≤ i → i < start + n →
      (∀ j, start ≤ j → j < i → env.clickExc j = none) →
      env.clickExc i = some e →
      runClicks env start n = (List.range' start (i + 1 - start), some e) := by
  induction n with
  | zero => intro start i h1 h2; omega
  | succ n ih =>
    intro start i h1 h2 hpre hi
    rcases Nat.eq_or_lt_of_le h1 with rfl | hlt
    · simp [runClicks, hi, Nat.add_sub_cancel_left, List.range'_succ]
    · have h0 : env.clickExc start = none := hpre start le_rfl hlt
      have := ih (start + 1) i hlt (by omega)
        (fun j hj1 hj2 => hpre j (by omega) hj2) hi
      simp [runClicks, h0, this]
      have heq : i + 1 - start = (i - start) + 1 := by omega
      rw [heq, List.range'_succ]

theorem runFinally_ok (env : Env) (a : Acq) (h1 : env.ctxCloseExc = none)
    (h2 : env.browserCloseExc = none) (h3 : env.stopExc = none) :
    runFinally env a =
      ⟨if a.ctx then 1 else 0, if a.browser then 1 else 0,
        if a.pw then 1 else 0, none⟩ := by
  rcases a with ⟨p, b, c⟩
  cases p <;> cases b <;> cases c <;> simp [runFinally, tdNext, h1, h2, h3]

theorem run_test_td (env : Env) :
    (run_test env).td = runFinally env (runBody env).acq := rfl

theorem run_test_body (env : Env) : (run_test env).body = runBody env := rfl

theorem run_test_outcome (env : Env) :
    (run_test env).outcome =
      finalOutcome (runBody env).exc (runFinally env (runBody env).acq) := rfl

/-- Under the hypotheses that every fallible scripted operation of the body
completes (the readiness waits may fail, as long as their failures are
playwright errors and hence swallowed), the body runs all nine click blocks
and the API `goto`, and raises the final `assert False`. -/
theorem runBody_all_steps_ok (env : Env)
    (hs : env.startExc = none) (hl : env.launchExc = none)
    (hc : env.newContextExc = none) (hp : env.newPageExc = none)
    (hg : env.gotoExc = none)
    (hm : env.mainWaitExc.all isApiError = true)
    (hf : env.frameWaitExc.all (fun r => r.all isApiError) = true)
    (hclick : ∀ i, i < 9 → env.clickExc i = none)
    (ha : env.apiGotoExc = none) :
    runBody env =
      ⟨allAcq, some (.assertionError undefinedExpectationMsg),
        List.range 9, true⟩ := by
  have hw := tryWaitLoadState_of_apiError hm
  have hfw := frameWaitLoop_of_apiError hf
  have h0 : env.clickExc 0 = none := hclick 0 (by omega)
  have hrest : runClicks env 1 8 = (List.range' 1 8, none) :=
    runClicks_ok env 8 1 (fun j hj1 hj2 => hclick j (by omega))
  simp [runBody, hs, hl, hc, hp, hg, hw, hfw, h0, ha, hrest]
  rw [List.range_eq_range']
  rfl

/-- `context.close()` is attempted exactly when the context was acquired —
it is the first statement of the `finally` block, so nothing can pre-empt it. -/
theorem runFinally_ctxCloses (env : Env) (a : Acq) :
    (runFinally env a).ctxCloses = if a.ctx then 1 else 0 := by
  rcases a with ⟨p, b, c⟩
  rcases h1 : env.ctxCloseExc with _ | e1 <;> cases c <;>
    simp [runFinally, tdNext, h1]

/-- Whether the first `finally` statement left no pending exception. -/
def tdCtxOk (env : Env) (a : Acq) : Bool :=
  !a.ctx || env.ctxCloseExc.isNone

/-- Whether the second `finally` statement left no pending exception. -/
def tdBrowserOk (env : Env) (a : Acq) : Bool :=
  !(a.browser && tdCtxOk env a) || env.browserCloseExc.isNone

/-- `browser.close()` is attempted exactly when the browser was acquired and
`context.close()` did not raise. -/
theorem runFinally_browserCloses (env : Env) (a : Acq) :
    (runFinally env a).browserCloses =
      if a.browser && tdCtxOk env a then 1 else 0 := by
  rcases a with ⟨p, b, c⟩
  rcases h1 : env.ctxCloseExc with _ | e1 <;>
    rcases h2 : env.browserCloseExc with _ | e2 <;>
    cases c <;> cases b <;>
    simp [runFinally, tdNext, tdCtxOk, h1, h2]

/-- `pw.stop()` is attempted exactly when the driver was acquired and neither
earlier close raised. -/
theorem runFinally_stops (env : Env) (a : Acq) :
    (runFinally env a).stops =
      if a.pw && (tdCtxOk env a && tdBrowserOk env a) then 1 else 0 := by
  rcases a with ⟨p, b, c⟩
  rcases h1 : env.ctxCloseExc with _ | e1 <;>
    rcases h2 : env.browserCloseExc with _ | e2 <;>
    rcases h3 : env.stopExc with _ | e3 <;>
    cases c <;> cases b <;> cases p <;>
    simp [runFinally, tdNext, tdCtxOk, tdBrowserOk, h1, h2, h3]

theorem finalOutcome_of_raised (bodyExc : Option Exc) (t : Teard)
    (h : t.raised ≠ none) : finalOutcome bodyExc t = t.raised := by
  rcases t with ⟨_, _, _, _ | e⟩
  · exact absurd rfl h
  · rfl

/-- An environment in which every awaited operation completes normally. -/
def envAllOk : Env :=
  { startExc := none, launchExc := none, newContextExc := none,
    newPageExc := none, gotoExc := none, mainWaitExc := none,
    frameWaitExc := [], clickExc := fun _ => none, apiGotoExc := none,
    ctxCloseExc := none, browserCloseExc := none, stopExc := none }

/-- C1: provided the teardown operations themselves complete, every session
resource acquired during the run (browsing context, browser process, driver
subsystem) is closed before the run ends, exactly once, on every control path
of the scripted body — normal completion, the final assertion failure, or an
exception raised at any scripted step (the environment `env` is arbitrary, so
every such control path is covered). -/
theorem tc009_c1_session_released_once (env : Env)
    (h1 : env.ctxCloseExc = none) (h2 : env.browserCloseExc = none)
    (h3 : env.stopExc = none) :
    ((run_test env).body.acq.ctx = true → (run_test env).td.ctxCloses = 1)
    ∧ ((run_test env).body.acq.browser = true →
        (run_test env).td.browserCloses = 1)
    ∧ ((run_test env).body.acq.pw = true → (run_test env).td.stops = 1)
    ∧ (run_test env).td.ctxCloses ≤ 1
    ∧ (run_test env).td.browserCloses ≤ 1
    ∧ (run_test env).td.stops ≤ 1 := by
  have hfin := runFinally_ok env (runBody env).acq h1 h2 h3
  rw [run_test_td, run_test_body, hfin]
  cases hc : (runBody env).acq.ctx <;> cases hb : (runBody env).acq.browser <;>
    cases hp : (runBody env).acq.pw <;> simp [hc, hb, hp]

theorem tc009_c1_witness :
    (envAllOk.ctxCloseExc = none ∧ envAllOk.browserCloseExc = none
      ∧ envAllOk.stopExc = none)
    ∧ (((run_test envAllOk).body.acq.ctx = true →
          (run_test envAllOk).td.ctxCloses = 1)
        ∧ ((run_test envAllOk).body.acq.browser = true →
            (run_test envAllOk).td.browserCloses = 1)
        ∧ ((run_test envAllOk).body.acq.pw = true →
            (run_test envAllOk).td.stops = 1)
        ∧ (run_test envAllOk).td.ctxCloses ≤ 1
        ∧ (run_test envAllOk).td.browserCloses ≤ 1
        ∧ (run_test envAllOk).td.stops ≤ 1) :=
  ⟨⟨rfl, rfl, rfl⟩, tc009_c1_session_released_once envAllOk rfl rfl rfl⟩

/-- C9: provided the teardown operations themselves complete, each of the
three resources is closed during cleanup if and only if it was acquired; in
particular, when acquisition fails partway, resources never acquired are not
closed while every resource acquired before the failure is still released. -/
theorem tc009_c9_close_iff_acquired (env : Env)
    (h1 : env.ctxCloseExc = none) (h2 : env.browserCloseExc = none)
    (h3 : env.stopExc = none) :
    ((run_test env).td.ctxCloses =
        if (run_test env).body.acq.ctx then 1 else 0)
    ∧ ((run_test env).td.browserCloses =
        if (run_test env).body.acq.browser then 1 else 0)
    ∧ ((run_test env).td.stops =
        if (run_test env).body.acq.pw then 1 else 0) := by
  have hfin := runFinally_ok env (runBody env).acq h1 h2 h3
  rw [run_test_td, run_test_body, hfin]
  exact ⟨rfl, rfl, rfl⟩

/-- An environment in which `browser = await pw.chromium.launch(...)` raises:
only the driver subsystem has been acquired when the body aborts. -/
def envLaunchFails : Env := { envAllOk with launchExc := some .apiError }

theorem tc009_c9_witness :
    (envLaunchFails.ctxCloseExc = none ∧ envLaunchFails.browserCloseExc = none
      ∧ envLaunchFails.stopExc = none)
    ∧ (((run_test envLaunchFails).td.ctxCloses =
          if (run_test envLaunchFails).body.acq.ctx then 1 else 0)
        ∧ ((run_test envLaunchFails).td.browserCloses =
            if (run_test envLaunchFails).body.acq.browser then 1 else 0)
        ∧ ((run_test envLaunchFails).td.stops =
            if (run_test envLaunchFails).body.acq.pw then 1 else 0)) :=
  ⟨⟨rfl, rfl, rfl⟩, tc009_c9_close_iff_acquired envLaunchFails rfl rfl rfl⟩

/-- C4: in every run in which all scripted steps complete without raising an
earlier error (the readiness waits may fail, their playwright errors being
swallowed), the run's terminal outcome is the failure raised by the final
unconditional `assert False` — an explicit expectation-undefined reason — and
is in particular never a pass (`none`). -/
theorem tc009_c4_undefined_expectation (env : Env)
    (hs : env.startExc = none) (hl : env.launchExc = none)
    (hc : env.newContextExc = none) (hp : env.newPageExc = none)
    (hg : env.gotoExc = none)
    (hm : env.mainWaitExc.all isApiError = true)
    (hf : env.frameWaitExc.all (fun r => r.all isApiError) = true)
    (hclick : ∀ i, i < 9 → env.clickExc i = none)
    (ha : env.apiGotoExc = none)
    (h1 : env.ctxCloseExc = none) (h2 : env.browserCloseExc = none)
    (h3 : env.stopExc = none) :
    (run_test env).outcome =
        some (.assertionError undefinedExpectationMsg)
    ∧ (run_test env).outcome ≠ none := by
  have hb := runBody_all_steps_ok env hs hl hc hp hg hm hf hclick ha
  have hfin := runFinally_ok env (runBody env).acq h1 h2 h3
  rw [run_test_outcome, hfin, hb]
  exact ⟨rfl, by simp [finalOutcome]⟩

theorem tc009_c4_witness :
    (envAllOk.startExc = none ∧ envAllOk.launchExc = none
      ∧ envAllOk.newContextExc = none ∧ envAllOk.newPageExc = none
      ∧ envAllOk.gotoExc = none
      ∧ envAllOk.mainWaitExc.all isApiError = true
      ∧ envAllOk.frameWaitExc.all (fun r => r.all isApiError) = true
      ∧ (∀ i, i < 9 → envAllOk.clickExc i = none)
      ∧ envAllOk.apiGotoExc = none ∧ envAllOk.ctxCloseExc = none
      ∧ envAllOk.browserCloseExc = none ∧ envAllOk.stopExc = none)
    ∧ ((run_test envAllOk).outcome =
          some (.assertionError undefinedExpectationMsg)
        ∧ (run_test envAllOk).outcome ≠ none) :=
  ⟨⟨rfl, rfl, rfl, rfl, rfl, rfl, rfl, fun _ _ => rfl, rfl, rfl, rfl, rfl⟩,
    tc009_c4_undefined_expectation envAllOk rfl rfl rfl rfl rfl rfl rfl
      (fun _ _ => rfl) rfl rfl rfl rfl⟩

/-- An environment in which the whole scripted body succeeds (so the body
raises only the final `assert False`) but `context.close()` raises during
teardown. -/
def envTeardownFail : Env := { envAllOk with ctxCloseExc := some .apiError }

/-- C3 counterexample: when `context.close()` raises during teardown, the
later teardown steps are NOT attempted — `browser.close()` and `pw.stop()`
never run even though both resources were acquired — and the teardown failure
IS re-raised: it replaces the run's original outcome (the `assert False`
failure) with the teardown exception.  The `finally` block of the script does
not protect its individual statements. -/
theorem tc009_c3_counterexample :
    (run_test envTeardownFail).body.acq.browser = true
    ∧ (run_test envTeardownFail).body.acq.pw = true
    ∧ (run_test envTeardownFail).td.ctxCloses = 1
    ∧ (run_test envTeardownFail).td.browserCloses = 0
    ∧ (run_test envTeardownFail).td.stops = 0
    ∧ (run_test envTeardownFail).body.exc =
        some (.assertionError undefinedExpectationMsg)
    ∧ (run_test envTeardownFail).outcome = some .apiError :=
  ⟨rfl, rfl, rfl, rfl, rfl, rfl, rfl⟩

/-- C3 amended: during teardown the three release steps are attempted in
order — close the context, then close the browser process, then stop the
driver subsystem — but each step is attempted only if its resource was
acquired AND no earlier teardown step raised; a failure in a teardown step is
not caught: it skips the remaining steps and replaces the run's original
outcome. -/
theorem tc009_c3_teardown_order (env : Env) :
    ((run_test env).td.ctxCloses =
        if (run_test env).body.acq.ctx then 1 else 0)
    ∧ ((run_test env).td.browserCloses =
        if (run_test env).body.acq.browser
            && tdCtxOk env (run_test env).body.acq then 1 else 0)
    ∧ ((run_test env).td.stops =
        if (run_test env).body.acq.pw
            && (tdCtxOk env (run_test env).body.acq
              && tdBrowserOk env (run_test env).body.acq) then 1 else 0)
    ∧ ((run_test env).td.raised ≠ none →
        (run_test env).outcome = (run_test env).td.raised) := by
  rw [run_test_td, run_test_body, run_test_outcome]
  exact ⟨runFinally_ctxCloses env _, runFinally_browserCloses env _,
    runFinally_stops env _, finalOutcome_of_raised _ _⟩

theorem tc009_c3_witness :
    (run_test envTeardownFail).td.raised ≠ none
    ∧ ((run_test envTeardownFail).td.ctxCloses =
          if (run_test envTeardownFail).body.acq.ctx then 1 else 0)
    ∧ ((run_test envTeardownFail).outcome =
        (run_test envTeardownFail).td.raised) :=
  ⟨by decide, (tc009_c3_teardown_order envTeardownFail).1,
    (tc009_c3_teardown_order envTeardownFail).2.2.2 (by decide)⟩

/-- C5: after the navigation commits (`page.goto(..., wait_until="commit")`
succeeds), failures of the main page's or of any currently known frame's
DOM-content-loaded wait are non-fatal as long as they are playwright errors
(`isApiError`), which covers both a `TimeoutError` and the error of a frame
that detaches mid-wait: each failure is swallowed at its `except
async_api.Error: pass` and execution proceeds to the first interaction step
(click block 0 is attempted).  A run with zero frames treats the per-frame
loop as a no-op. -/
theorem tc009_c5_readiness_nonfatal (env : Env)
    (hs : env.startExc = none) (hl : env.launchExc = none)
    (hc : env.newContextExc = none) (hp : env.newPageExc = none)
    (hg : env.gotoExc = none)
    (hm : env.mainWaitExc.all isApiError = true)
    (hf : env.frameWaitExc.all (fun r => r.all isApiError) = true) :
    tryWaitLoadState env.mainWaitExc = none
    ∧ frameWaitLoop env.frameWaitExc = none
    ∧ frameWaitLoop [] = none
    ∧ (runBody env).clickSteps.head? = some 0 := by
  have hw := tryWaitLoadState_of_apiError hm
  have hfw := frameWaitLoop_of_apiError hf
  refine ⟨hw, hfw, rfl, ?_⟩
  unfold runBody
  rw [hs, hl, hc, hp, hg, hw, hfw]
  cases h0 : env.clickExc 0 <;> simp [h0]
  cases hA : env.apiGotoExc <;> simp [hA]
  rcases hR : runClicks env 1 8 with ⟨ks, _ | e⟩ <;> simp [hR]

/-- An environment in which the navigation commits but the main page's
readiness wait times out, one frame's wait times out, and another frame
detaches mid-wait (raising a playwright error); every other operation
completes. -/
def envWaitsFail : Env :=
  { envAllOk with
    mainWaitExc := some .navTimeout,
    frameWaitExc := [some .navTimeout, some .apiError, none] }

theorem tc009_c5_witness :
    (envWaitsFail.startExc = none ∧ envWaitsFail.launchExc = none
      ∧ envWaitsFail.newContextExc = none ∧ envWaitsFail.newPageExc = none
      ∧ envWaitsFail.gotoExc = none
      ∧ envWaitsFail.mainWaitExc.all isApiError = true
      ∧ envWaitsFail.frameWaitExc.all (fun r => r.all isApiError) = true)
    ∧ (tryWaitLoadState envWaitsFail.mainWaitExc = none
        ∧ frameWaitLoop envWaitsFail.frameWaitExc = none
        ∧ frameWaitLoop [] = none
        ∧ (runBody envWaitsFail).clickSteps.head? = some 0) :=
  ⟨⟨rfl, rfl, rfl, rfl, rfl, by decide, by decide⟩,
    tc009_c5_readiness_nonfatal envWaitsFail rfl rfl rfl rfl rfl
      (by decide) (by decide)⟩

/-- When the earlier steps succeed and the `elem.click` of block `i` raises
`e`, the body aborts with `e` after attempting exactly the click blocks
`0, ..., i`. -/
theorem runBody_click_fails (env : Env) (e : Exc) (i : Nat) (hi : i < 9)
    (hs : env.startExc = none) (hl : env.launchExc = none)
    (hc : env.newContextExc = none) (hp : env.newPageExc = none)
    (hg : env.gotoExc = none)
    (hm : env.mainWaitExc.all isApiError = true)
    (hf : env.frameWaitExc.all (fun r => r.all isApiError) = true)
    (hpre : ∀ j, j < i → env.clickExc j = none)
    (hfail : env.clickExc i = some e)
    (ha : env.apiGotoExc = none) :
    (runBody env).acq = allAcq ∧ (runBody env).exc = some e
      ∧ (runBody env).clickSteps = List.range (i + 1) := by
  have hw := tryWaitLoadState_of_apiError hm
  have hfw := frameWaitLoop_of_apiError hf
  rcases Nat.eq_zero_or_pos i with rfl | hpos
  · simp [runBody, hs, hl, hc, hp, hg, hw, hfw, hfail, List.range]
    rfl
  · have h0 : env.clickExc 0 = none := hpre 0 hpos
    have hrest : runClicks env 1 8 = (List.range' 1 (i + 1 - 1), some e) :=
      runClicks_fail env e 8 1 i hpos (by omega)
        (fun j hj1 hj2 => hpre j hj2) hfail
    simp [runBody, hs, hl, hc, hp, hg, hw, hfw, h0, ha, hrest]
    rw [List.range_eq_range', List.range'_succ]

/-- C6: when the target element of click block `i` is not resolved within the
click timeout and the click raises a `LocatorTimeout` (and every earlier
scripted step succeeded), the failure is terminal for the scenario: block `i`
is attempted exactly once (no retry), no later click block executes (every
attempted block has index ≤ `i`), the run's outcome is the `LocatorTimeout`
failure (not a pass), and — provided the teardown operations themselves
complete — the session is still cleanly released (context, browser and driver
each closed once). -/
theorem tc009_c6_locator_timeout_terminal (env : Env) (i : Nat) (hi : i < 9)
    (hs : env.startExc = none) (hl : env.launchExc = none)
    (hc : env.newContextExc = none) (hp : env.newPageExc = none)
    (hg : env.gotoExc = none)
    (hm : env.mainWaitExc.all isApiError = true)
    (hf : env.frameWaitExc.all (fun r => r.all isApiError) = true)
    (hpre : ∀ j, j < i → env.clickExc j = none)
    (hfail : env.clickExc i = some .locatorTimeout)
    (ha : env.apiGotoExc = none)
    (h1 : env.ctxCloseExc = none) (h2 : env.browserCloseExc = none)
    (h3 : env.stopExc = none) :
    (run_test env).outcome = some .locatorTimeout
    ∧ (run_test env).body.clickSteps = List.range (i + 1)
    ∧ (run_test env).body.clickSteps.count i = 1
    ∧ (∀ j, j ∈ (run_test env).body.clickSteps → j ≤ i)
    ∧ (run_test env).td.ctxCloses = 1
    ∧ (run_test env).td.browserCloses = 1
    ∧ (run_test env).td.stops = 1 := by
  obtain ⟨hacq, hexc, hsteps⟩ :=
    runBody_click_fails env .locatorTimeout i hi hs hl hc hp hg hm hf
      hpre hfail ha
  have hfin := runFinally_ok env (runBody env).acq h1 h2 h3
  rw [run_test_outcome, run_test_body, run_test_td, hfin, hacq, hexc, hsteps]
  refine ⟨rfl, rfl, ?_, ?_, rfl, rfl, rfl⟩
  · rw [List.range_succ]
    rw [List.count_append]
    rw [List.count_eq_zero_of_not_mem (by simp [List.mem_range])]
    simp
  · intro j hj
    rw [List.mem_range] at hj
    omega

/-- An environment in which the click of block 2 times out waiting for its
element and everything else completes. -/
def envLocatorTimeout : Env :=
  { envAllOk with
    clickExc := fun j => if j = 2 then some .locatorTimeout else none }

theorem tc009_c6_witness :
    (2 < 9
      ∧ envLocatorTimeout.startExc = none ∧ envLocatorTimeout.launchExc = none
      ∧ envLocatorTimeout.newContextExc = none
      ∧ envLocatorTimeout.newPageExc = none
      ∧ envLocatorTimeout.gotoExc = none
      ∧ envLocatorTimeout.mainWaitExc.all isApiError = true
      ∧ envLocatorTimeout.frameWaitExc.all (fun r => r.all isApiError) = true
      ∧ (∀ j, j < 2 → envLocatorTimeout.clickExc j = none)
      ∧ envLocatorTimeout.clickExc 2 = some .locatorTimeout
      ∧ envLocatorTimeout.apiGotoExc = none
      ∧ envLocatorTimeout.ctxCloseExc = none
      ∧ envLocatorTimeout.browserCloseExc = none
      ∧ envLocatorTimeout.stopExc = none)
    ∧ ((run_test envLocatorTimeout).outcome = some .locatorTimeout
        ∧ (run_test envLocatorTimeout).body.clickSteps = List.range (2 + 1)
        ∧ (run_test envLocatorTimeout).body.clickSteps.count 2 = 1
        ∧ (∀ j, j ∈ (run_test envLocatorTimeout).body.clickSteps → j ≤ 2)
        ∧ (run_test envLocatorTimeout).td.ctxCloses = 1
        ∧ (run_test envLocatorTimeout).td.browserCloses = 1
        ∧ (run_test envLocatorTimeout).td.stops = 1) :=
  ⟨⟨by omega, rfl, rfl, rfl, rfl, rfl, rfl, rfl, by decide, rfl, rfl, rfl,
      rfl, rfl⟩,
    tc009_c6_locator_timeout_terminal envLocatorTimeout 2 (by omega)
      rfl rfl rfl rfl rfl rfl rfl (by decide) rfl rfl rfl rfl rfl⟩

theorem getLast?_eq_some_mem {α : Type} {l : List α} {a : α}
    (h : l.getLast? = some a) : a ∈ l := by
  have hx : a ∈ l.getLast? := Option.mem_def.mpr h
  obtain ⟨hne, rfl⟩ := List.mem_getLast?_eq_getLast hx
  exact List.getLast_mem hne

theorem interactionTraces_getD (p0 : PwPage) (pagesAt : Nat → List PwPage)
    (i : Nat) (hi : i < clickXpaths.length) :
    (interactionTraces p0 pagesAt).getD i [] =
      execClickStep p0 (pagesAt i) (clickXpaths.getD i "") := by
  unfold interactionTraces
  rw [List.getD_eq_getElem?_getD, List.getElem?_map, List.getElem?_range hi]
  rfl

/-- C7: in every click block, the locator is resolved against the topmost
page of the context as it exists at that block (`context.pages[-1]`, re-read
at the start of the block) — never against a page cached from an earlier
block — and the fixed 3000 ms settling delay is awaited strictly before the
click; consequently, if a navigation replaces the topmost page between two
blocks, the two blocks click different pages. -/
theorem tc009_c7_settle_and_topmost (p0 : PwPage)
    (pagesAt : Nat → List PwPage) (i : Nat)
    (hi : i < clickXpaths.length) :
    clickTargetOf ((interactionTraces p0 pagesAt).getD i []) =
        (pagesAt i).getLast?
    ∧ (∃ a b : Nat, a < b
        ∧ ((interactionTraces p0 pagesAt).getD i [])[a]? =
            some (StepEvent.settle p0 3000)
        ∧ ((interactionTraces p0 pagesAt).getD i [])[b]? =
            some (StepEvent.click ((pagesAt i).getLast?) (clickXpaths.getD i "") 5000))
    ∧ (∀ j, j < clickXpaths.length →
        (pagesAt i).getLast? ≠ (pagesAt j).getLast? →
        clickTargetOf ((interactionTraces p0 pagesAt).getD i []) ≠
          clickTargetOf ((interactionTraces p0 pagesAt).getD j [])) := by
  rw [interactionTraces_getD p0 pagesAt i hi]
  refine ⟨by simp [execClickStep, clickTargetOf], ⟨2, 3, by omega, rfl, rfl⟩,
    ?_⟩
  intro j hj hne
  rw [interactionTraces_getD p0 pagesAt j hj]
  simpa [execClickStep, clickTargetOf] using hne

theorem tc009_c7_witness :
    0 < clickXpaths.length
    ∧ (clickTargetOf
          ((interactionTraces ⟨0⟩ (fun n => if n = 0 then [⟨0⟩, ⟨7⟩] else [⟨0⟩])).getD 0 []) =
        ((fun n => if n = 0 then [⟨0⟩, ⟨7⟩] else [⟨0⟩]) 0 : List PwPage).getLast?
      ∧ (∃ a b : Nat, a < b
          ∧ ((interactionTraces ⟨0⟩ (fun n => if n = 0 then [⟨0⟩, ⟨7⟩] else [⟨0⟩])).getD 0 [])[a]? =
              some (StepEvent.settle ⟨0⟩ 3000)
          ∧ ((interactionTraces ⟨0⟩ (fun n => if n = 0 then [⟨0⟩, ⟨7⟩] else [⟨0⟩])).getD 0 [])[b]? =
              some (StepEvent.click (((fun n => if n = 0 then [⟨0⟩, ⟨7⟩] else [⟨0⟩]) 0 : List PwPage).getLast?)
                (clickXpaths.getD 0 "") 5000))
      ∧ (∀ j, j < clickXpaths.length →
          ((fun n => if n = 0 then [⟨0⟩, ⟨7⟩] else [⟨0⟩]) 0 : List PwPage).getLast? ≠
            ((fun n => if n = 0 then [⟨0⟩, ⟨7⟩] else [⟨0⟩]) j : List PwPage).getLast? →
          clickTargetOf
              ((interactionTraces ⟨0⟩ (fun n => if n = 0 then [⟨0⟩, ⟨7⟩] else [⟨0⟩])).getD 0 []) ≠
            clickTargetOf
              ((interactionTraces ⟨0⟩ (fun n => if n = 0 then [⟨0⟩, ⟨7⟩] else [⟨0⟩])).getD j []))) :=
  ⟨by decide,
    tc009_c7_settle_and_topmost ⟨0⟩
      (fun n => if n = 0 then [⟨0⟩, ⟨7⟩] else [⟨0⟩]) 0 (by decide)⟩

/-- C10: in a click block executed while the context's page list is
`p0 :: extra` (with `p0` the initially opened page and `extra` the pages
opened after it, all distinct from `p0`), the settling delay is awaited on the
initially opened page `p0` while the click targets the most recently opened
page `(p0 :: extra).getLast?`; the two coincide exactly when no additional
page has been opened (`extra = []`). -/
theorem tc009_c10_settle_page_vs_click_page (p0 : PwPage)
    (extra : List PwPage) (xp : String) (hdist : ∀ q ∈ extra, q ≠ p0) :
    settlePageOf (execClickStep p0 (p0 :: extra) xp) = some p0
    ∧ clickTargetOf (execClickStep p0 (p0 :: extra) xp) =
        (p0 :: extra).getLast?
    ∧ (clickTargetOf (execClickStep p0 (p0 :: extra) xp) = some p0 ↔
        extra = []) := by
  refine ⟨by simp [execClickStep, settlePageOf],
    by simp [execClickStep, clickTargetOf], ?_⟩
  simp only [execClickStep, clickTargetOf]
  constructor
  · intro h
    cases extra with
    | nil => rfl
    | cons q t =>
      rw [List.getLast?_cons_cons] at h
      exact absurd rfl (hdist p0 (getLast?_eq_some_mem h))
  · rintro rfl
    rfl

theorem tc009_c10_witness :
    (∀ q ∈ ([⟨1⟩] : List PwPage), q ≠ ⟨0⟩)
    ∧ (settlePageOf (execClickStep ⟨0⟩ [⟨0⟩, ⟨1⟩] "html/body/div") = some ⟨0⟩
        ∧ clickTargetOf (execClickStep ⟨0⟩ [⟨0⟩, ⟨1⟩] "html/body/div") =
            ([⟨0⟩, ⟨1⟩] : List PwPage).getLast?
        ∧ (clickTargetOf (execClickStep ⟨0⟩ [⟨0⟩, ⟨1⟩] "html/body/div") =
              some ⟨0⟩ ↔ ([⟨1⟩] : List PwPage) = [])) :=
  ⟨by decide,
    tc009_c10_settle_page_vs_click_page ⟨0⟩ [⟨1⟩] "html/body/div" (by decide)⟩

/-- C2 (Assertion Engine modelled from the spec): `assertSpatialBounds`
reports nothing exactly when every record of the result lies within
`radiusKm + eps` great-circle distance of the query center, and any violating
record makes it report a `SpatialBoundsViolation` naming a record of the
result that indeed violates the bound. -/
theorem tc009_c2_spatial_bounds_check (dist : ℚ × ℚ → Issue → ℚ)
    (result : QueryResult) (center : ℚ × ℚ) (radiusKm eps : ℚ) :
    (assertSpatialBounds dist result center radiusKm eps = none ↔
      ∀ r ∈ result.records, dist center r ≤ radiusKm + eps)
    ∧ (∀ v, assertSpatialBounds dist result center radiusKm eps = some v →
        v.offender ∈ result.records
          ∧ radiusKm + eps < dist center v.offender)
    ∧ ((∃ r ∈ result.records, radiusKm + eps < dist center r) →
        ∃ v, assertSpatialBounds dist result center radiusKm eps = some v
          ∧ v.offender ∈ result.records
          ∧ radiusKm + eps < dist center v.offender) := by
  rcases hfind : result.records.find?
      (fun r => decide (radiusKm + eps < dist center r)) with _ | r
  · have hall : ∀ r ∈ result.records, ¬ (radiusKm + eps < dist center r) := by
      intro r hr
      have := List.find?_eq_none.mp hfind r hr
      simpa using this
    have hres : assertSpatialBounds dist result center radiusKm eps = none := by
      unfold assertSpatialBounds
      rw [hfind]
    refine ⟨⟨fun _ r hr => le_of_not_lt (hall r hr), fun _ => hres⟩, ?_, ?_⟩
    · intro v hv
      rw [hres] at hv
      cases hv
    · rintro ⟨r, hr, hlt⟩
      exact absurd hlt (hall r hr)
  · have hlt : radiusKm + eps < dist center r := by
      have := List.find?_some hfind
      simpa using this
    have hmem : r ∈ result.records := List.mem_of_find?_eq_some hfind
    have hres : assertSpatialBounds dist result center radiusKm eps =
        some ⟨r⟩ := by
      unfold assertSpatialBounds
      rw [hfind]
    refine ⟨⟨fun h => ?_, fun h => ?_⟩, ?_, ?_⟩
    · rw [hres] at h
      cases h
    · exact absurd hlt (not_lt.mpr (h r hmem))
    · intro v hv
      rw [hres] at hv
      injection hv with hv
      subst hv
      exact ⟨hmem, hlt⟩
    · intro _
      exact ⟨⟨r⟩, hres, hmem, hlt⟩

/-- A record 80 km north of the center, outside a 5 km radius. -/
def issueFar : Issue := ⟨"far-issue", 80, 0, "open"⟩

/-- A query result containing only the out-of-bounds record. -/
def resultFar : QueryResult := ⟨[issueFar], 120⟩

/-- A concrete geodesic model for the witness: distance is the record's
latitude (in km from the equator-centered query). -/
def distLat : ℚ × ℚ → Issue → ℚ := fun _ r => r.latitude

theorem tc009_c2_witness :
    (∃ r ∈ resultFar.records, (5 : ℚ) + 0 < distLat (0, 0) r)
    ∧ (∃ v, assertSpatialBounds distLat resultFar (0, 0) 5 0 = some v
        ∧ v.offender ∈ resultFar.records
        ∧ (5 : ℚ) + 0 < distLat (0, 0) v.offender) :=
  ⟨⟨issueFar, by simp [resultFar], by norm_num [distLat, issueFar]⟩,
    (tc009_c2_spatial_bounds_check distLat resultFar (0, 0) 5 0).2.2
      ⟨issueFar, by simp [resultFar], by norm_num [distLat, issueFar]⟩⟩

/-- C8 (Network Probe modelled from the spec): under the direct-invocation
strategy, the reported `elapsed` is the wall-clock time from request dispatch
to response completion of the performed exchange; under the passive
interception strategy, every produced `QueryResult` carries the records and
the dispatch-to-completion elapsed time of an observed exchange matching the
endpoint's path pattern — and `NoMatchingRequest` is signalled exactly when no
observed exchange matches. -/
theorem tc009_c8_elapsed_wallclock (o : NetObservation) (pat : String)
    (obs : List NetObservation) :
    (observeDirect o).elapsed = o.completedAt - o.dispatchAt
    ∧ (observeDirect o).records = o.records
    ∧ (∀ r, observePassive pat obs = .result r →
        ∃ o2 ∈ obs, matchesPattern pat o2 = true
          ∧ r.elapsed = o2.completedAt - o2.dispatchAt
          ∧ r.records = o2.records)
    ∧ (observePassive pat obs = .noMatchingRequest ↔
        ∀ o2 ∈ obs, matchesPattern pat o2 = false) := by
  refine ⟨rfl, rfl, ?_, ?_⟩
  · intro r hr
    unfold observePassive at hr
    rcases hfind : obs.find? (matchesPattern pat) with _ | o2
    · rw [hfind] at hr
      cases hr
    · rw [hfind] at hr
      injection hr with hr
      exact ⟨o2, List.mem_of_find?_eq_some hfind, List.find?_some hfind,
        by rw [← hr]; rfl, by rw [← hr]; rfl⟩
  · unfold observePassive
    rcases hfind : obs.find? (matchesPattern pat) with _ | o2
    · constructor
      · intro _ o2 ho2
        have := List.find?_eq_none.mp hfind o2 ho2
        simpa using this
      · intro _
        rfl
    · have hmem := List.mem_of_find?_eq_some hfind
      have hmat := List.find?_some hfind
      constructor
      · intro h
        cases h
      · intro hall
        rw [hall o2 hmem] at hmat
        cases hmat

/-- An observed exchange that does not match the endpoint pattern. -/
def obsOther : NetObservation := ⟨"/static/app.js", 0, 1, []⟩

/-- An observed exchange against the geospatial query endpoint, dispatched at
t = 10 and completed at t = 250. -/
def obsMatch : NetObservation :=
  ⟨"/api/issues?lat=40.7128&lng=-74.0060&radius=5&filter=status:open",
    10, 250, []⟩

/-- The network traffic observed while the trigger runs. -/
def obsListW : List NetObservation := [obsOther, obsMatch]

theorem tc009_c8_witness :
    observePassive "/api/issues" obsListW =
        .result (observeDirect obsMatch)
    ∧ (∃ o2 ∈ obsListW, matchesPattern "/api/issues" o2 = true
        ∧ (observeDirect obsMatch).elapsed = o2.completedAt - o2.dispatchAt
        ∧ (observeDirect obsMatch).records = o2.records) :=
  ⟨by rfl,
    (tc009_c8_elapsed_wallclock obsMatch "/api/issues" obsListW).2.2.1
      (observeDirect obsMatch) (by rfl)⟩
